import Mathlib

/-!
Verification of the core domain logic of the ai-health-wellness-advisory-crew
repository: the nutrition macro-delta calculator, the programs service
(activation and current-week computation), the SDK check-in/adjustment
schemas, and the weekly progress-adjustment engine (Metrics Aggregator and
Adjustment Rules Engine) described in the repository's design documents.

JavaScript numbers are modelled as rationals (ℚ); JavaScript millisecond
timestamps as integers; fallible lookups as Option; thrown exceptions as
Except errors.  Repositories (TypeORM) are modelled as lists of rows with
first-match lookup and replace-by-primary-key save.
-/

/-! ## Nutrition service (src/unnamed/part_007, NutritionService) -/

/-- A food row, from the nutrition `Food` entity: per-100g macro columns
used by `calculateMacroDeltas`. -/
structure Food where
  id : String
  kcal_per_100g : ℚ
  protein_g_per_100g : ℚ
  carbs_g_per_100g : ℚ
  fat_g_per_100g : ℚ
deriving DecidableEq

/-- `getFoodById`: `foodRepository.findOne({ where: { id: foodId } })`;
`none` models the thrown NotFoundException. -/
def getFoodById (db : List Food) (foodId : String) : Option Food :=
  db.find? (fun f => f.id == foodId)

/-- The record built by the local `calculateMacros` helper inside
`calculateMacroDeltas`. -/
structure FoodMacros where
  kcal : ℚ
  protein_g : ℚ
  carbs_g : ℚ
  fat_g : ℚ
deriving DecidableEq

/-- The local helper: `(food.x_per_100g * serving) / 100` for each macro. -/
def calculateMacros (food : Food) (serving : ℚ) : FoodMacros :=
  { kcal := food.kcal_per_100g * serving / 100
    protein_g := food.protein_g_per_100g * serving / 100
    carbs_g := food.carbs_g_per_100g * serving / 100
    fat_g := food.fat_g_per_100g * serving / 100 }

/-- The result shape of `calculateMacroDeltas`. -/
structure MacroDeltas where
  kcal_delta : ℚ
  protein_g_delta : ℚ
  carbs_g_delta : ℚ
  fat_g_delta : ℚ
deriving DecidableEq

/-- Componentwise negation of a `MacroDeltas` record. -/
def MacroDeltas.neg (d : MacroDeltas) : MacroDeltas :=
  ⟨-d.kcal_delta, -d.protein_g_delta, -d.carbs_g_delta, -d.fat_g_delta⟩

/-- Componentwise scaling of a `MacroDeltas` record. -/
def MacroDeltas.smul (c : ℚ) (d : MacroDeltas) : MacroDeltas :=
  ⟨c * d.kcal_delta, c * d.protein_g_delta, c * d.carbs_g_delta, c * d.fat_g_delta⟩

/-- `NutritionService.calculateMacroDeltas`: looks up both foods and returns
`macros2 - macros1` componentwise at the given serving size. -/
def calculateMacroDeltas (db : List Food) (food1Id food2Id : String)
    (servingSize : ℚ) : Option MacroDeltas := do
  let food1 ← getFoodById db food1Id
  let food2 ← getFoodById db food2Id
  let macros1 := calculateMacros food1 servingSize
  let macros2 := calculateMacros food2 servingSize
  pure { kcal_delta := macros2.kcal - macros1.kcal
         protein_g_delta := macros2.protein_g - macros1.protein_g
         carbs_g_delta := macros2.carbs_g - macros1.carbs_g
         fat_g_delta := macros2.fat_g - macros1.fat_g }

/-! ## Programs service (src/apps/gateway/src/modules/programs/programs.service.ts) -/

/-- A program row: the `Program` entity columns touched by the service. -/
structure Program where
  id : String
  user_id : String
  profile_id : String
  start_date : String
  end_date : String
  status : String
deriving DecidableEq

/-- `ActivateProgramDto`: the caller-supplied activation dates. -/
structure ActivateProgramDto where
  start_date : String
  end_date : String
deriving DecidableEq

/-- The exceptions `activateProgram` can throw. -/
inductive ActivateError where
  | notFound
  | badRequest
deriving DecidableEq

/-- The `findOne({ where: { id: programId, user_id: userId } })` predicate. -/
def progMatch (programId userId : String) (p : Program) : Bool :=
  p.id == programId && p.user_id == userId

/-- `programRepository.findOne({ where: { id: programId, user_id: userId } })`. -/
def findOneProgram (repo : List Program) (programId userId : String) : Option Program :=
  repo.find? (progMatch programId userId)

/-- `programRepository.save(program)`: replace the row with the same primary
key. -/
def saveProgram (repo : List Program) (p : Program) : List Program :=
  repo.map (fun q => if q.id == p.id then p else q)

/-- The mutation `activateProgram` applies to a found draft program:
status set to active, dates taken from the DTO. -/
def activatedFrom (q : Program) (dto : ActivateProgramDto) : Program :=
  { q with status := "active", start_date := dto.start_date,
           end_date := dto.end_date }

/-- `ProgramsService.activateProgram`: NotFound if no program matches id and
user, BadRequest if the program is not in draft status, otherwise sets
status to active and the dates from the DTO and saves.  The returned list is
the repository state after the call (unchanged on errors, since the source
throws before mutating). -/
def activateProgram (repo : List Program) (userId programId : String)
    (dto : ActivateProgramDto) : Except ActivateError Program × List Program :=
  match findOneProgram repo programId userId with
  | none => (Except.error ActivateError.notFound, repo)
  | some program =>
    if program.status == "draft" then
      (Except.ok (activatedFrom program dto),
       saveProgram repo (activatedFrom program dto))
    else
      (Except.error ActivateError.badRequest, repo)

/-- Milliseconds per day, the `1000 * 60 * 60 * 24` constant in
`getCurrentWeek`. -/
def msPerDay : ℚ := 1000 * 60 * 60 * 24

/-- `ProgramsService.getCurrentWeek` week computation, for a program whose
start date is `startMs` and an evaluation instant `currentMs` (both Unix
milliseconds): `diffDays = Math.ceil(diffTime / 86400000)`,
`currentWeek = Math.floor(diffDays / 7) + 1`. -/
def getCurrentWeek (startMs currentMs : Int) : Int :=
  Int.floor (((Int.ceil (((currentMs - startMs : Int) : ℚ) / msPerDay) : Int) : ℚ) / 7) + 1

/-! ## SDK check-in schema (src/packages/sdk/src/schemas.ts, CheckinSchema) -/

/-- The field names of `CheckinSchema`, in source order. -/
def checkinSchemaFields : List String :=
  ["id", "program_id", "week", "submitted_at", "adherence_nutrition",
   "adherence_training", "sleep_score", "fatigue", "summary", "photos"]

/-- A check-in record as validated by `CheckinSchema`: adherence fields are
percentages (0 to 100), `sleep_score` is 0 to 100, and `fatigue` is a
directly submitted 1 to 10 value. -/
structure Checkin where
  id : String
  program_id : String
  week : Nat
  submitted_at : String
  adherence_nutrition : ℚ
  adherence_training : ℚ
  sleep_score : ℚ
  fatigue : ℚ
  summary : String
deriving DecidableEq

/-- The zod bounds of `CheckinSchema` on a check-in's numeric fields. -/
def checkinValid (c : Checkin) : Prop :=
  1 ≤ c.week ∧
  0 ≤ c.adherence_nutrition ∧ c.adherence_nutrition ≤ 100 ∧
  0 ≤ c.adherence_training ∧ c.adherence_training ≤ 100 ∧
  0 ≤ c.sleep_score ∧ c.sleep_score ≤ 100 ∧
  1 ≤ c.fatigue ∧ c.fatigue ≤ 10

/-! ## Metrics Aggregator (weekly progress engine, design docs §4.1) -/

/-- Clamp a rational into the closed interval from `lo` to `hi`. -/
def clampQ (lo hi x : ℚ) : ℚ := max lo (min x hi)

/-- Arithmetic mean of a list of rationals (0 on the empty list). -/
def avgQ (xs : List ℚ) : ℚ := xs.sum / (xs.length : ℚ)

/-- Modelled from the spec: the `MetricsSnapshot` produced by the Metrics
Aggregator, which is described in the repository's design documents
(README 4.5 weekly-adjustment pseudologic, ARCH deterministic heuristics)
but has no implementation under the source tree.  Steps are optional:
absent device data makes step conditions not evaluable. -/
structure MetricsSnapshot where
  weight_delta : ℚ
  workout_adherence : ℚ
  nutrition_adherence : ℚ
  fatigue : ℚ
  sleep : ℚ
  steps : Option ℚ
  low_confidence : Bool
deriving DecidableEq

/-- Modelled from the spec: the Aggregator's raw inputs.  The check-in
history is oldest first; `checkinWeights` carries the body-weight attribute
of each check-in (the spec's CheckIn has a body-weight field that the SDK
`CheckinSchema` does not carry); `dailyWeights` and `dailySteps` are the
device-supplied daily observations; the adherence ratios are supplied
pre-computed by the logging subsystem, `none` when missing. -/
structure AggregatorInput where
  checkins : List Checkin
  checkinWeights : List ℚ
  dailyWeights : List ℚ
  workoutAdherence : Option ℚ
  nutritionAdherence : Option ℚ
  dailySteps : List ℚ
deriving DecidableEq

/-- Modelled from the spec: the weekly weight delta and its confidence flag.
With at least 14 daily observations, the average of the most recent 7 minus
the average of the preceding 7; otherwise fall back to the difference of the
two most recent check-in weights with reduced confidence; with fewer than
two check-in weights, 0 with reduced confidence. -/
def weightDeltaOf (daily checkinWeights : List ℚ) : ℚ × Bool :=
  if 14 ≤ daily.length then
    (avgQ (daily.reverse.take 7) - avgQ ((daily.reverse.drop 7).take 7), false)
  else
    match checkinWeights.reverse with
    | w1 :: w2 :: _ => (w1 - w2, true)
    | _ => (0, true)

/-- Modelled from the spec: the safe-default snapshot returned for a missing
or malformed check-in history: ratios 0, `low_confidence = true`, and
conservative scores on which no adjustment rule fires. -/
def emptySnapshot : MetricsSnapshot :=
  { weight_delta := 0, workout_adherence := 0, nutrition_adherence := 0,
    fatigue := 1, sleep := 10, steps := none, low_confidence := true }

/-- Modelled from the spec: the Metrics Aggregator, absent from the source
tree.  It derives the snapshot for the most recent week: the weight delta
with its confidence flag, externally supplied adherence ratios clamped to
the unit interval (0 when missing), the fatigue score taken from the latest
check-in's submitted `fatigue` field clamped to the 1 to 10 range (the
spec's stress/energy inputs do not exist on the SDK check-in), the sleep
score taken directly from the latest check-in, and mean daily steps when
device data exists. -/
def aggregate (inp : AggregatorInput) : MetricsSnapshot :=
  match inp.checkins.getLast? with
  | none => emptySnapshot
  | some latest =>
    let wd := weightDeltaOf inp.dailyWeights inp.checkinWeights
    { weight_delta := wd.1
      workout_adherence := clampQ 0 1 (inp.workoutAdherence.getD 0)
      nutrition_adherence := clampQ 0 1 (inp.nutritionAdherence.getD 0)
      fatigue := clampQ 1 10 latest.fatigue
      sleep := latest.sleep_score
      steps := if inp.dailySteps.isEmpty then none else some (avgQ inp.dailySteps)
      low_confidence := wd.2 }

/-! ## Adjustment Rules Engine (weekly progress engine, design docs §4.2) -/

/-- Modelled from the spec: the recognized goal variants; a weight-loss goal
carries its target weekly loss rate in kg per week (a positive magnitude). -/
inductive GoalType where
  | weight_loss (targetRateKgPerWeek : ℚ)
  | muscle_gain
deriving DecidableEq

/-- Modelled from the spec: the input of one `evaluate` call.  Identifiers
are optional because their absence is the engine's one hard-failure class;
`history` holds up to two prior snapshots, most recent first; the RPE-trend
and volume-trend booleans feed the third deload disjunct. -/
structure EngineInput where
  program_id : Option String
  week : Option Nat
  goal : Option GoalType
  baseline_kcal : ℚ
  current_kcal : ℚ
  step_target : ℚ
  snapshot : MetricsSnapshot
  history : List MetricsSnapshot
  rpe_rising : Bool
  volume_increasing_2 : Bool
deriving DecidableEq

/-- Modelled from the spec: the engine's hard-failure signal for missing
required identifiers. -/
inductive EngineError where
  | invalidInput
deriving DecidableEq

/-- Modelled from the spec: the `AdjustmentDecision` record (mirroring the
SDK `AdjustmentSchema` and the gateway `Adjustment` entity): signed integer
kcal delta, percentage volume delta, deload flag, habit deltas, and the
rationale code of the rule that fired. -/
structure AdjustmentDecision where
  program_id : String
  week : Nat
  kcal_delta : Int
  volume_delta : ℚ
  deload : Bool
  habit_deltas : List (String × ℚ)
  rationale : String
deriving DecidableEq

/-- Round to the nearest whole number, halves up (JavaScript `Math.round`). -/
def roundNearest (x : ℚ) : Int := Int.floor (x + 1 / 2)

/-- Modelled from the spec: clamp a computed integer kcal delta into the
symmetric safety band of half-width `b` (15 percent of the baseline). -/
def clampKcal (x : Int) (b : ℚ) : Int :=
  if (x : ℚ) < -b then -Int.floor b
  else if b < (x : ℚ) then Int.floor b
  else x

/-- Modelled from the spec: rule 1, the deload check: fatigue at least 8,
or sleep at most 4, or a rising RPE trend together with volume increasing
for two consecutive evaluations. -/
def deloadCond (inp : EngineInput) : Bool :=
  decide (8 ≤ inp.snapshot.fatigue) || decide (inp.snapshot.sleep ≤ 4) ||
    (inp.rpe_rising && inp.volume_increasing_2)

/-- Modelled from the spec: the two-consecutive-week weight-loss plateau:
an active weight-loss goal, a prior snapshot, and on both the current and
the prior snapshot an actual weekly loss below 70 percent of the target
rate. -/
def plateauCond (inp : EngineInput) : Bool :=
  match inp.goal, inp.history.head? with
  | some (GoalType.weight_loss rate), some prev =>
      decide (-inp.snapshot.weight_delta < 7 / 10 * rate) &&
        decide (-prev.weight_delta < 7 / 10 * rate)
  | _, _ => false

/-- Modelled from the spec: both adherence ratios at least 0.80. -/
def adherenceOk (inp : EngineInput) : Bool :=
  decide (4 / 5 ≤ inp.snapshot.workout_adherence) &&
    decide (4 / 5 ≤ inp.snapshot.nutrition_adherence)

/-- Modelled from the spec: rule 2, steps evaluable and below the
configured target during an adherent weight-loss plateau. -/
def lowStepsCond (inp : EngineInput) : Bool :=
  plateauCond inp && adherenceOk inp &&
    (match inp.snapshot.steps with
     | some st => decide (st < inp.step_target)
     | none => false)

/-- Modelled from the spec: rule 3, an adherent weight-loss plateau with
steps not evaluable or already meeting the target. -/
def calorieCond (inp : EngineInput) : Bool :=
  plateauCond inp && adherenceOk inp &&
    (match inp.snapshot.steps with
     | some st => decide (inp.step_target ≤ st)
     | none => true)

/-- Modelled from the spec: the no-change rationale code, flagging
insufficient profile data when the goal type is absent or unrecognized. -/
def noChangeRationale (inp : EngineInput) : String :=
  if inp.goal.isNone then "insufficient_profile_data" else "on_track"

/-- Modelled from the spec: `Adjustments.evaluate`, the Adjustment Rules
Engine, absent from the source tree.  Missing identifiers are the one hard
failure; otherwise the rules fire in strict priority order: deload
(volume -35 percent, kcal 0), step increase before kcal cut (+1500 steps),
calorie reduction (-9.5 percent of the current target, rounded to the
nearest kcal and clamped to the ±15 percent-of-baseline band), and the
no-change default. -/
def evaluate (inp : EngineInput) : Except EngineError AdjustmentDecision :=
  match inp.program_id, inp.week with
  | some pid, some wk =>
    if deloadCond inp then
      Except.ok { program_id := pid, week := wk, kcal_delta := 0,
                  volume_delta := -35, deload := true, habit_deltas := [],
                  rationale := "deload" }
    else if lowStepsCond inp then
      Except.ok { program_id := pid, week := wk, kcal_delta := 0,
                  volume_delta := 0, deload := false,
                  habit_deltas := [("steps", 1500)],
                  rationale := "increase_steps" }
    else if calorieCond inp then
      Except.ok { program_id := pid, week := wk,
                  kcal_delta :=
                    clampKcal (roundNearest (-(19 / 200) * inp.current_kcal))
                      (15 / 100 * inp.baseline_kcal),
                  volume_delta := 0, deload := false, habit_deltas := [],
                  rationale := "calorie_reduction" }
    else
      Except.ok { program_id := pid, week := wk, kcal_delta := 0,
                  volume_delta := 0, deload := false, habit_deltas := [],
                  rationale := noChangeRationale inp }
  | _, _ => Except.error EngineError.invalidInput

/-! ## Theorems -/

/-- Claim C10: `calculateMacroDeltas` is antisymmetric (swapping the two
food ids negates every delta field), zero on equal food ids, and each delta
scales linearly in the serving size. -/
theorem calculateMacroDeltas_algebra (db : List Food) (a b : String) (s c : ℚ) :
    (∀ d, calculateMacroDeltas db a b s = some d →
      calculateMacroDeltas db b a s = some d.neg) ∧
    (∀ f, getFoodById db a = some f →
      calculateMacroDeltas db a a s = some ⟨0, 0, 0, 0⟩) ∧
    (∀ d, calculateMacroDeltas db a b s = some d →
      calculateMacroDeltas db a b (c * s) = some (MacroDeltas.smul c d)) := by
  refine ⟨?_, ?_, ?_⟩
  · intro d hd
    cases h1 : getFoodById db a with
    | none => simp [calculateMacroDeltas, h1] at hd
    | some f1 =>
      cases h2 : getFoodById db b with
      | none => simp [calculateMacroDeltas, h1, h2] at hd
      | some f2 =>
        simp [calculateMacroDeltas, h1, h2] at hd
        subst hd
        simp [calculateMacroDeltas, h1, h2, MacroDeltas.neg, calculateMacros]
  · intro f hf
    simp [calculateMacroDeltas, hf, calculateMacros]
  · intro d hd
    cases h1 : getFoodById db a with
    | none => simp [calculateMacroDeltas, h1] at hd
    | some f1 =>
      cases h2 : getFoodById db b with
      | none => simp [calculateMacroDeltas, h1, h2] at hd
      | some f2 =>
        simp [calculateMacroDeltas, h1, h2] at hd
        subst hd
        simp [calculateMacroDeltas, h1, h2, MacroDeltas.smul, calculateMacros]
        try and_intros
        all_goals ring

/-- A sample food row. -/
def appleFood : Food := ⟨"apple", 52, 3 / 10, 14, 1 / 5⟩

/-- A sample food row. -/
def riceFood : Food := ⟨"rice", 130, 27 / 10, 28, 3 / 10⟩

/-- A sample food repository. -/
def foodsDb : List Food := [appleFood, riceFood]

/-- Witness for claim C10: swapping apple and rice at a 150 g serving
negates the concrete deltas. -/
theorem calculateMacroDeltas_algebra_witness :
    calculateMacroDeltas foodsDb "rice" "apple" 150 =
      some (MacroDeltas.neg ⟨117, 18 / 5, 21, 3 / 20⟩) :=
  (calculateMacroDeltas_algebra foodsDb "apple" "rice" 150 1).1
    ⟨117, 18 / 5, 21, 3 / 20⟩
    (by
      simp [calculateMacroDeltas, getFoodById, foodsDb, appleFood, riceFood,
        calculateMacros, List.find?]
      norm_num)

/-- Claim C8 counterexample: evaluated 8 days before the program's start
date, `getCurrentWeek` returns -1, so the computed week number is not always
a positive integer. -/
theorem getCurrentWeek_counterexample :
    getCurrentWeek (8 * 86400000) 0 = -1 ∧
      ¬ (1 ≤ getCurrentWeek (8 * 86400000) 0) := by
  have hval : getCurrentWeek (8 * 86400000) 0 = -1 := by
    unfold getCurrentWeek
    rw [show ((0 - 8 * 86400000 : Int) : ℚ) / msPerDay = ((-8 : ℤ) : ℚ) by
      norm_num [msPerDay]]
    rw [Int.ceil_intCast]
    rw [show (((-8 : ℤ) : ℤ) : ℚ) / 7 = -8 / 7 by norm_num]
    rw [show Int.floor ((-8 / 7 : ℚ)) = -2 from Int.floor_eq_iff.mpr (by norm_num)]
    norm_num
  exact ⟨hval, by rw [hval]; decide⟩

/-- Claim C8 (amended): whenever the evaluation instant is at or after the
program's start date, the week number computed by `getCurrentWeek` is an
integer greater than or equal to 1. -/
theorem getCurrentWeek_pos_of_started (startMs currentMs : Int)
    (h : startMs ≤ currentMs) : 1 ≤ getCurrentWeek startMs currentMs := by
  unfold getCurrentWeek
  have h0 : (0 : ℚ) ≤ ((currentMs - startMs : Int) : ℚ) := by
    exact_mod_cast sub_nonneg.mpr h
  have hms : (0 : ℚ) ≤ msPerDay := by norm_num [msPerDay]
  have hd : (0 : Int) ≤ Int.ceil (((currentMs - startMs : Int) : ℚ) / msPerDay) :=
    Int.ceil_nonneg (div_nonneg h0 hms)
  have hf : (0 : Int) ≤
      Int.floor (((Int.ceil (((currentMs - startMs : Int) : ℚ) / msPerDay) : Int) : ℚ) / 7) := by
    rw [Int.floor_nonneg]
    apply div_nonneg _ (by norm_num)
    exact_mod_cast hd
  omega

/-- Witness for claim C8 (amended): at the start instant itself the week is
1. -/
theorem getCurrentWeek_pos_witness : (0 : Int) ≤ 0 ∧ 1 ≤ getCurrentWeek 0 0 :=
  ⟨le_refl 0, getCurrentWeek_pos_of_started 0 0 (le_refl 0)⟩


/-- Saving a row that keeps the primary key and owner of a found row makes
the subsequent lookup return the saved row. -/
theorem findOne_save_match (repo : List Program) (pid uid : String) (q p : Program)
    (hq : findOneProgram repo pid uid = some q) (hid : p.id = q.id)
    (huid : p.user_id = q.user_id) :
    findOneProgram (saveProgram repo p) pid uid = some p := by
  have hmatch : progMatch pid uid q = true := List.find?_some hq
  have hand := (Bool.and_eq_true _ _).mp hmatch
  have hqid : q.id = pid := beq_iff_eq.mp hand.1
  have hquid : q.user_id = uid := beq_iff_eq.mp hand.2
  have hpmatch : progMatch pid uid p = true := by
    simp [progMatch, hid, huid, hqid, hquid]
  simp only [findOneProgram, saveProgram] at hq ⊢
  induction repo with
  | nil => simp at hq
  | cons r t ih =>
    by_cases hr : progMatch pid uid r = true
    · have hrid : (r.id == p.id) = true := by
        have hrq : r = q := by
          rw [List.find?_cons_of_pos _ hr] at hq
          exact Option.some.inj hq
        exact beq_iff_eq.mpr (by rw [hid, hrq])
      simp only [List.map_cons, hrid, if_true]
      exact List.find?_cons_of_pos _ hpmatch
    · rw [List.find?_cons_of_neg _ hr] at hq
      have step := ih hq
      by_cases hrid : (r.id == p.id) = true
      · simp only [List.map_cons, hrid, if_true]
        exact List.find?_cons_of_pos _ hpmatch
      · simp only [List.map_cons, if_neg hrid]
        rw [List.find?_cons_of_neg _ hr]
        exact step

/-- Claim C9: `activateProgram` returns NotFound when no program with the
given id belongs to the user, BadRequest when the found program is not in
draft status (the repository is unchanged in both error cases), otherwise
returns the program with status active and the DTO's dates; consequently a
successfully activated program can never be activated a second time. -/
theorem activateProgram_spec (repo : List Program) (userId programId : String)
    (dto dto2 : ActivateProgramDto) :
    (findOneProgram repo programId userId = none →
      activateProgram repo userId programId dto =
        (Except.error ActivateError.notFound, repo)) ∧
    (∀ q, findOneProgram repo programId userId = some q → q.status ≠ "draft" →
      activateProgram repo userId programId dto =
        (Except.error ActivateError.badRequest, repo)) ∧
    (∀ q, findOneProgram repo programId userId = some q → q.status = "draft" →
      activateProgram repo userId programId dto =
        (Except.ok (activatedFrom q dto),
         saveProgram repo (activatedFrom q dto))) ∧
    (∀ q, (activatedFrom q dto).status = "active" ∧
      (activatedFrom q dto).start_date = dto.start_date ∧
      (activatedFrom q dto).end_date = dto.end_date) ∧
    (∀ p repo2, activateProgram repo userId programId dto = (Except.ok p, repo2) →
      activateProgram repo2 userId programId dto2 =
        (Except.error ActivateError.badRequest, repo2)) := by
  refine ⟨?_, ?_, ?_, ?_, ?_⟩
  · intro h
    simp [activateProgram, h]
  · intro q hq hs
    simp [activateProgram, hq, hs]
  · intro q hq hs
    simp [activateProgram, hq, hs]
  · intro q
    exact ⟨rfl, rfl, rfl⟩
  · intro p repo2 h
    cases hq : findOneProgram repo programId userId with
    | none => simp [activateProgram, hq] at h
    | some q =>
      by_cases hs : (q.status == "draft") = true
      · simp only [activateProgram, hq, hs, if_true] at h
        have hp' : activatedFrom q dto = p := Except.ok.inj (congrArg Prod.fst h)
        have hrepo : saveProgram repo (activatedFrom q dto) = repo2 :=
          congrArg Prod.snd h
        have hfind : findOneProgram repo2 programId userId = some p := by
          rw [← hrepo, ← hp']
          exact findOne_save_match repo programId userId q (activatedFrom q dto)
            hq rfl rfl
        have hpstat : (p.status == "draft") = false := by
          rw [← hp']
          simp [activatedFrom]
        simp [activateProgram, hfind, hpstat]
      · simp [activateProgram, hq, hs] at h

/-- A sample draft program row. -/
def draftProgram : Program :=
  { id := "p1", user_id := "u1", profile_id := "hp1",
    start_date := "2024-01-01", end_date := "2024-03-25", status := "draft" }

/-- A sample activation DTO. -/
def activationDto : ActivateProgramDto :=
  { start_date := "2024-02-01", end_date := "2024-04-25" }

/-- Witness for claim C9: activating a concrete draft program succeeds and
returns the activated row. -/
theorem activateProgram_spec_witness :
    activateProgram [draftProgram] "u1" "p1" activationDto =
      (Except.ok (activatedFrom draftProgram activationDto),
       saveProgram [draftProgram] (activatedFrom draftProgram activationDto)) :=
  (activateProgram_spec [draftProgram] "u1" "p1" activationDto
    activationDto).2.2.1 draftProgram (by decide) rfl

/-- Claim C1: every decision `evaluate` returns satisfies mutual exclusion
of the primary actions: deload implies a zero kcal delta, and a nonzero
kcal delta implies no deload. -/
theorem evaluate_mutual_exclusion (inp : EngineInput) (d : AdjustmentDecision)
    (h : evaluate inp = Except.ok d) :
    (d.deload = true → d.kcal_delta = 0) ∧
      (d.kcal_delta ≠ 0 → d.deload = false) := by
  cases hp : inp.program_id with
  | none => simp [evaluate, hp] at h
  | some pid =>
    cases hw : inp.week with
    | none => simp [evaluate, hp, hw] at h
    | some wk =>
      simp only [evaluate, hp, hw] at h
      split_ifs at h <;> rw [← Except.ok.inj h] <;> simp

/-- A snapshot witnessing a weight-loss plateau with high fatigue. -/
def snapPlateau : MetricsSnapshot :=
  { weight_delta := -(3 / 20), workout_adherence := 17 / 20,
    nutrition_adherence := 17 / 20, fatigue := 9, sleep := 3,
    steps := none, low_confidence := false }

/-- The prior snapshot of the same plateau. -/
def snapPrev : MetricsSnapshot :=
  { weight_delta := -(3 / 20), workout_adherence := 17 / 20,
    nutrition_adherence := 17 / 20, fatigue := 4, sleep := 7,
    steps := none, low_confidence := false }

/-- An input on which both the deload condition and the calorie-cut
condition hold. -/
def bothCondInput : EngineInput :=
  { program_id := some "p1", week := some 5,
    goal := some (GoalType.weight_loss (3 / 10)),
    baseline_kcal := 2000, current_kcal := 2000, step_target := 8000,
    snapshot := snapPlateau, history := [snapPrev],
    rpe_rising := false, volume_increasing_2 := false }

/-- Witness for claim C1: the decision on `bothCondInput` satisfies mutual
exclusion. -/
theorem evaluate_mutual_exclusion_witness :
    ((AdjustmentDecision.deload
        { program_id := "p1", week := 5, kcal_delta := 0, volume_delta := -35,
          deload := true, habit_deltas := [], rationale := "deload" } = true →
      AdjustmentDecision.kcal_delta
        { program_id := "p1", week := 5, kcal_delta := 0, volume_delta := -35,
          deload := true, habit_deltas := [], rationale := "deload" } = 0) ∧
     (AdjustmentDecision.kcal_delta
        { program_id := "p1", week := 5, kcal_delta := 0, volume_delta := -35,
          deload := true, habit_deltas := [], rationale := "deload" } ≠ 0 →
      AdjustmentDecision.deload
        { program_id := "p1", week := 5, kcal_delta := 0, volume_delta := -35,
          deload := true, habit_deltas := [], rationale := "deload" } = false)) :=
  evaluate_mutual_exclusion bothCondInput
    { program_id := "p1", week := 5, kcal_delta := 0, volume_delta := -35,
      deload := true, habit_deltas := [], rationale := "deload" }
    (by simp [evaluate, bothCondInput, deloadCond, snapPlateau]; norm_num)

/-- Claim C2: when both the deload condition (rule 1) and the calorie-cut
condition (rule 3) hold on an input with valid identifiers, `evaluate`
emits the deload decision (deload, volume -35 percent, kcal 0), never the
calorie cut. -/
theorem evaluate_deload_priority (inp : EngineInput) (pid : String) (wk : Nat)
    (hp : inp.program_id = some pid) (hw : inp.week = some wk)
    (hd : deloadCond inp = true) (hc : calorieCond inp = true) :
    evaluate inp =
      Except.ok { program_id := pid, week := wk, kcal_delta := 0,
                  volume_delta := -35, deload := true, habit_deltas := [],
                  rationale := "deload" } := by
  simp [evaluate, hp, hw, hd]

/-- Witness for claim C2: on `bothCondInput` (fatigue 9 and an adherent
weight-loss plateau with steps not evaluable) the deload decision is
emitted. -/
theorem evaluate_deload_priority_witness :
    evaluate bothCondInput =
      Except.ok { program_id := "p1", week := 5, kcal_delta := 0,
                  volume_delta := -35, deload := true, habit_deltas := [],
                  rationale := "deload" } :=
  evaluate_deload_priority bothCondInput "p1" 5 rfl rfl
    (by simp [deloadCond, bothCondInput, snapPlateau]; norm_num)
    (by
      simp [calorieCond, bothCondInput, snapPlateau, snapPrev, plateauCond,
        adherenceOk]
      norm_num)

/-- `clampKcal` always lands inside the symmetric band when the half-width
is nonnegative. -/
theorem clampKcal_mem (x : Int) (b : ℚ) (hb : 0 ≤ b) :
    -b ≤ ((clampKcal x b : Int) : ℚ) ∧ ((clampKcal x b : Int) : ℚ) ≤ b := by
  have hfl : (0 : Int) ≤ Int.floor b := Int.floor_nonneg.mpr hb
  have hfl' : (0 : ℚ) ≤ ((Int.floor b : Int) : ℚ) := by exact_mod_cast hfl
  have hfle : ((Int.floor b : Int) : ℚ) ≤ b := Int.floor_le b
  unfold clampKcal
  split_ifs with h1 h2
  · constructor
    · push_cast
      linarith
    · push_cast
      linarith
  · exact ⟨by linarith, hfle⟩
  · exact ⟨by linarith, by linarith⟩

/-- Claim C3: every decision returned by `evaluate` (for a nonnegative
baseline) has a kcal delta within plus or minus 15 percent of the baseline
calorie target, and whenever deload is set the volume delta lies between
-40 and 0 percent. -/
theorem evaluate_bounds (inp : EngineInput) (d : AdjustmentDecision)
    (hb : 0 ≤ inp.baseline_kcal) (h : evaluate inp = Except.ok d) :
    (-(15 / 100 * inp.baseline_kcal) ≤ (d.kcal_delta : ℚ) ∧
      (d.kcal_delta : ℚ) ≤ 15 / 100 * inp.baseline_kcal) ∧
    (d.deload = true → -40 ≤ d.volume_delta ∧ d.volume_delta ≤ 0) := by
  have hband : (0 : ℚ) ≤ 15 / 100 * inp.baseline_kcal := by
    apply mul_nonneg _ hb
    norm_num
  cases hp : inp.program_id with
  | none => simp [evaluate, hp] at h
  | some pid =>
    cases hw : inp.week with
    | none => simp [evaluate, hp, hw] at h
    | some wk =>
      simp only [evaluate, hp, hw] at h
      split_ifs at h <;> rw [← Except.ok.inj h]
      · refine ⟨⟨?_, ?_⟩, ?_⟩
        · simpa using neg_nonpos.mpr hband
        · simpa using hband
        · intro _
          norm_num
      · refine ⟨⟨?_, ?_⟩, ?_⟩
        · simpa using neg_nonpos.mpr hband
        · simpa using hband
        · intro hcontra
          simp at hcontra
      · refine ⟨?_, ?_⟩
        · exact clampKcal_mem _ _ hband
        · intro hcontra
          simp at hcontra
      · refine ⟨⟨?_, ?_⟩, ?_⟩
        · simpa using neg_nonpos.mpr hband
        · simpa using hband
        · intro hcontra
          simp at hcontra

/-- Witness for claim C3: the deload decision on `bothCondInput` obeys both
bounds (baseline 2000, band 300). -/
theorem evaluate_bounds_witness :
    (-(15 / 100 * EngineInput.baseline_kcal bothCondInput) ≤
        ((0 : Int) : ℚ) ∧
      ((0 : Int) : ℚ) ≤ 15 / 100 * EngineInput.baseline_kcal bothCondInput) ∧
    ((true : Bool) = true → -40 ≤ (-35 : ℚ) ∧ (-35 : ℚ) ≤ 0) :=
  evaluate_bounds bothCondInput
    { program_id := "p1", week := 5, kcal_delta := 0, volume_delta := -35,
      deload := true, habit_deltas := [], rationale := "deload" }
    (by norm_num [bothCondInput])
    (by simp [evaluate, bothCondInput, deloadCond, snapPlateau]; norm_num)

/-- Claim C5: `evaluate` is deterministic: two calls on equal inputs return
identical decisions (the model is a pure function of its input, with no
hidden state). -/
theorem evaluate_deterministic (i1 i2 : EngineInput) (h : i1 = i2) :
    evaluate i1 = evaluate i2 := by
  rw [h]

/-- Witness for claim C5: repeated evaluation of `bothCondInput` agrees. -/
theorem evaluate_deterministic_witness :
    evaluate bothCondInput = evaluate bothCondInput :=
  evaluate_deterministic bothCondInput bothCondInput rfl

/-- With no goal, the plateau-based conditions cannot fire. -/
theorem lowSteps_calorie_false_of_no_goal (inp : EngineInput)
    (hg : inp.goal = none) :
    lowStepsCond inp = false ∧ calorieCond inp = false := by
  have hplat : plateauCond inp = false := by
    cases hh : inp.history.head? <;> simp [plateauCond, hg, hh]
  constructor <;> simp [lowStepsCond, calorieCond, hplat]

/-- Claim C6: `evaluate` signals the hard failure exactly when a required
identifier is missing; with identifiers present it always returns a
decision, and with an absent goal type (and no deload trigger) it falls
back to the no-change rule with the insufficient-profile-data rationale
instead of throwing. -/
theorem evaluate_invalid_input_iff (inp : EngineInput) :
    (evaluate inp = Except.error EngineError.invalidInput ↔
      (inp.program_id = none ∨ inp.week = none)) ∧
    (∀ pid wk, inp.program_id = some pid → inp.week = some wk →
      ∃ d, evaluate inp = Except.ok d) ∧
    (∀ pid wk, inp.program_id = some pid → inp.week = some wk →
      inp.goal = none → deloadCond inp = false →
      evaluate inp =
        Except.ok { program_id := pid, week := wk, kcal_delta := 0,
                    volume_delta := 0, deload := false, habit_deltas := [],
                    rationale := "insufficient_profile_data" }) := by
  refine ⟨?_, ?_, ?_⟩
  · cases hp : inp.program_id with
    | none => simp [evaluate, hp]
    | some pid =>
      cases hw : inp.week with
      | none => simp [evaluate, hp, hw]
      | some wk =>
        simp only [evaluate, hp, hw]
        constructor
        · intro h
          split_ifs at h
        · intro h
          rcases h with h | h <;> exact Option.noConfusion h
  · intro pid wk hp hw
    simp only [evaluate, hp, hw]
    split_ifs <;> exact ⟨_, rfl⟩
  · intro pid wk hp hw hg hd
    obtain ⟨hls, hcc⟩ := lowSteps_calorie_false_of_no_goal inp hg
    simp [evaluate, hp, hw, hd, hls, hcc, noChangeRationale, hg]

/-- An input with identifiers present but no goal and no deload trigger. -/
def noGoalInput : EngineInput :=
  { program_id := some "p2", week := some 3, goal := none,
    baseline_kcal := 2200, current_kcal := 2200, step_target := 8000,
    snapshot := { weight_delta := 0, workout_adherence := 9 / 10,
                  nutrition_adherence := 9 / 10, fatigue := 4, sleep := 7,
                  steps := none, low_confidence := false },
    history := [], rpe_rising := false, volume_increasing_2 := false }

/-- Witness for claim C6: on `noGoalInput` the engine returns the no-change
decision flagged with insufficient profile data rather than throwing. -/
theorem evaluate_invalid_input_iff_witness :
    evaluate noGoalInput =
      Except.ok { program_id := "p2", week := 3, kcal_delta := 0,
                  volume_delta := 0, deload := false, habit_deltas := [],
                  rationale := "insufficient_profile_data" } :=
  (evaluate_invalid_input_iff noGoalInput).2.2 "p2" 3 rfl rfl rfl
    (by simp [deloadCond, noGoalInput]; norm_num)

/-- Claim C7: the Aggregator never raises: an empty check-in history yields
the safe-default snapshot (low confidence, zero adherence ratios); missing
adherence data yields zero ratios; and a single check-in (with fewer than
14 daily observations and at most one check-in weight) yields a zero weight
delta with low confidence. -/
theorem aggregate_safe_defaults (inp : AggregatorInput) :
    (inp.checkins = [] →
      aggregate inp = emptySnapshot ∧
        (aggregate inp).low_confidence = true ∧
        (aggregate inp).workout_adherence = 0 ∧
        (aggregate inp).nutrition_adherence = 0) ∧
    (inp.workoutAdherence = none → (aggregate inp).workout_adherence = 0) ∧
    (inp.nutritionAdherence = none →
      (aggregate inp).nutrition_adherence = 0) ∧
    (∀ c, inp.checkins = [c] → inp.dailyWeights.length < 14 →
      inp.checkinWeights.length ≤ 1 →
      (aggregate inp).weight_delta = 0 ∧
        (aggregate inp).low_confidence = true) := by
  have hclamp0 : clampQ 0 1 0 = 0 := by
    have hmin : min (0 : ℚ) 1 = 0 := min_eq_left (by norm_num)
    simp [clampQ, hmin]
  refine ⟨?_, ?_, ?_, ?_⟩
  · intro h
    have hlast : inp.checkins.getLast? = none := by simp [h]
    refine ⟨by simp [aggregate, hlast], ?_, ?_, ?_⟩ <;>
      simp [aggregate, hlast, emptySnapshot]
  · intro h
    cases hlast : inp.checkins.getLast? with
    | none => simp [aggregate, hlast, emptySnapshot]
    | some latest => simp [aggregate, hlast, h, hclamp0]
  · intro h
    cases hlast : inp.checkins.getLast? with
    | none => simp [aggregate, hlast, emptySnapshot]
    | some latest => simp [aggregate, hlast, h, hclamp0]
  · intro c hc hdaily hweights
    have hlast : inp.checkins.getLast? = some c := by simp [hc]
    have hwd : weightDeltaOf inp.dailyWeights inp.checkinWeights = (0, true) := by
      have hnot : ¬ (14 ≤ inp.dailyWeights.length) := by omega
      cases hcw : inp.checkinWeights with
      | nil => simp [weightDeltaOf, hnot]
      | cons w tl =>
        cases htl : tl with
        | nil => simp [weightDeltaOf, hnot]
        | cons w2 tl2 =>
          rw [hcw, htl] at hweights
          simp at hweights
    constructor <;> simp [aggregate, hlast, hwd]

/-- An aggregator input with no history and no ancillary data. -/
def emptyAggInput : AggregatorInput :=
  { checkins := [], checkinWeights := [], dailyWeights := [],
    workoutAdherence := none, nutritionAdherence := none, dailySteps := [] }

/-- Witness for claim C7: the safe-default snapshot on the empty input. -/
theorem aggregate_safe_defaults_witness :
    aggregate emptyAggInput = emptySnapshot ∧
      (aggregate emptyAggInput).low_confidence = true ∧
      (aggregate emptyAggInput).workout_adherence = 0 ∧
      (aggregate emptyAggInput).nutrition_adherence = 0 :=
  (aggregate_safe_defaults emptyAggInput).1 rfl

/-- A sample check-in as submitted through `CheckinSchema`. -/
def sampleCheckin : Checkin :=
  { id := "c1", program_id := "p1", week := 1, submitted_at := "2024-01-08",
    adherence_nutrition := 90, adherence_training := 80, sleep_score := 70,
    fatigue := 7, summary := "ok" }

/-- A sample aggregator input holding only `sampleCheckin`. -/
def sampleAggInput : AggregatorInput :=
  { checkins := [sampleCheckin], checkinWeights := [70], dailyWeights := [],
    workoutAdherence := some (4 / 5), nutritionAdherence := some (9 / 10),
    dailySteps := [] }

/-- Claim C4 counterexample: the SDK `CheckinSchema` has no `stress_level`
or `energy_level` field at all; `fatigue` is itself a submitted field, and
on a concrete input the snapshot's fatigue score is exactly the submitted
value, not a value derived from stress/energy inputs. -/
theorem checkin_fatigue_counterexample :
    ("stress_level" ∈ checkinSchemaFields) = False ∧
    ("energy_level" ∈ checkinSchemaFields) = False ∧
    ("fatigue" ∈ checkinSchemaFields) = True ∧
    (aggregate sampleAggInput).fatigue = sampleCheckin.fatigue := by
  have hmin : min (7 : ℚ) 10 = 7 := min_eq_left (by norm_num)
  have hmax : max (1 : ℚ) 7 = 7 := max_eq_right (by norm_num)
  refine ⟨by simp [checkinSchemaFields], by simp [checkinSchemaFields],
    by simp [checkinSchemaFields], ?_⟩
  simp [aggregate, sampleAggInput, sampleCheckin, clampQ, hmin, hmax]

/-- Claim C4 (amended): the snapshot's fatigue score equals the latest
check-in's directly submitted `fatigue` value clamped to the 1 to 10 range,
and for a schema-valid check-in it is exactly the submitted value. -/
theorem aggregate_fatigue_from_submitted (inp : AggregatorInput) (c : Checkin)
    (h : inp.checkins.getLast? = some c) :
    (aggregate inp).fatigue = clampQ 1 10 c.fatigue ∧
      (checkinValid c → (aggregate inp).fatigue = c.fatigue) := by
  have hf : (aggregate inp).fatigue = clampQ 1 10 c.fatigue := by
    simp [aggregate, h]
  refine ⟨hf, fun hv => ?_⟩
  obtain ⟨-, -, -, -, -, -, -, h1, h10⟩ := hv
  rw [hf]
  simp only [clampQ]
  rw [min_eq_left h10, max_eq_right h1]

/-- Witness for claim C4 (amended): the snapshot fatigue of the sample
input is the submitted fatigue 7. -/
theorem aggregate_fatigue_witness :
    (aggregate sampleAggInput).fatigue = sampleCheckin.fatigue :=
  (aggregate_fatigue_from_submitted sampleAggInput sampleCheckin
      (by simp [sampleAggInput])).2
    (by refine ⟨?_, ?_, ?_, ?_, ?_, ?_, ?_, ?_, ?_⟩ <;>
      norm_num [sampleCheckin, checkinValid])
